import Mathlib

/-!
Verification of the persistent bash-session tool of this repository.

The development shallowly embeds the core of `dev/compute/doc/bash.py`
(`_BashSession`, `BashTool`) and `dev/compute/doc/base.py` (`ToolResult`).
Text is modelled as `List Char`; the interaction with the operating system
(the spawned shell process, the polled stdout buffer, the stderr buffer) is
modelled by explicit state (`Proc`) and by an environment record (`RunEnv`)
holding the successive stdout-buffer snapshots seen by the polling loop and
the stderr buffer accumulated since the previous command.  Raised exceptions
(`ToolError`) are modelled by an explicit error constructor.
-/

/-- Text is modelled as a list of characters, mirroring Python `str`. -/
abbrev Str := List Char

/-- Does `pat` occur at the very start of `s`?  Models Python `startswith`,
used below to locate substring occurrences as `str.index` does. -/
def hasPref : Str → Str → Bool
  | [], _ => true
  | _ :: _, [] => false
  | p :: ps, c :: cs => p == c && hasPref ps cs

/-- Index of the first occurrence of `pat` in `s`, scanning left to right.
Models Python `s.index(pat)` (and `pat in s` via `Option.isSome`). -/
def firstIdx (pat : Str) : Str → Option Nat
  | [] => if hasPref pat [] then some 0 else none
  | c :: rest =>
      if hasPref pat (c :: rest) then some 0
      else Option.map (fun n => n + 1) (firstIdx pat rest)

/-- The text strictly before the first occurrence of `pat` in `s`
(`s[: s.index(pat)]` in the source); `s` itself when `pat` does not occur. -/
def takeBeforeFirst (pat s : Str) : Str :=
  match firstIdx pat s with
  | some i => s.take i
  | none => s

/-- Strip exactly one trailing newline when present: the source's
`if output.endswith("\n"): output = output[:-1]`. -/
def stripOneNewline (s : Str) : Str :=
  if s.getLast? = some (Char.ofNat 10) then s.dropLast else s

deriving instance DecidableEq for Except

/-! ### `base.py`: `ToolResult` and its combination operation -/

/-- `ToolResult` from `dev/compute/doc/base.py`: immutable record of output,
error, optional base64 image and optional system message.  `none` models
Python `None`. -/
structure ToolResult where
  output : Option Str := none
  error : Option Str := none
  base64_image : Option Str := none
  system : Option Str := none
deriving DecidableEq

/-- Python truthiness of an optional string: `None` and `""` are falsy. -/
def truthy : Option Str → Bool
  | none => false
  | some [] => false
  | some (_ :: _) => true

/-- Message of the `ValueError` raised by `combine_fields`. -/
def cannotCombineMsg : Str := "Cannot combine tool results".data

/-- `combine_fields` from `ToolResult.__add__`: when both fields are truthy,
concatenate them (or fail when `concatenate` is false); otherwise
`field or other_field`. -/
def combine_fields (field other_field : Option Str) (concatenate : Bool) :
    Except Str (Option Str) :=
  if truthy field && truthy other_field then
    if concatenate then Except.ok (some (field.getD [] ++ other_field.getD []))
    else Except.error cannotCombineMsg
  else Except.ok (if truthy field then field else other_field)

/-- `ToolResult.__add__`: fields are combined in declaration order, the
first failing combination aborting the whole operation (a raised
`ValueError`).  `base64_image` is the only field combined with
`concatenate=False`. -/
def ToolResult.add (a b : ToolResult) : Except Str ToolResult :=
  match combine_fields a.output b.output true with
  | Except.error m => Except.error m
  | Except.ok o =>
    match combine_fields a.error b.error true with
    | Except.error m => Except.error m
    | Except.ok e =>
      match combine_fields a.base64_image b.base64_image false with
      | Except.error m => Except.error m
      | Except.ok img =>
        match combine_fields a.system b.system true with
        | Except.error m => Except.error m
        | Except.ok sys =>
            Except.ok { output := o, error := e, base64_image := img, system := sys }

/-- The non-failing combination of two optional text fields: concatenation
when both are truthy, otherwise `field or other_field`.  Used to state what
`combine_fields _ _ true` computes. -/
def orElseConcat (f g : Option Str) : Option Str :=
  if truthy f && truthy g then some (f.getD [] ++ g.getD [])
  else if truthy f then f else g

/-! ### `bash.py`: the session -/

/-- The spawned shell process as the session observes it: its pid and its
`returncode` (`none` while the process is still running). -/
structure Proc where
  pid : Nat
  returncode : Option Int
deriving DecidableEq

/-- `_BashSession` state: the `_started` flag, the sticky `_timed_out` flag
and the process handle.  The `proc` field is only meaningful once `started`
is true (Python assigns `_process` inside `start`); `BashSession.new` stores
a placeholder. -/
structure BashSession where
  started : Bool
  timed_out : Bool
  proc : Proc
deriving DecidableEq

/-- `_BashSession.__init__`: not started, not timed out. -/
def BashSession.new : BashSession :=
  { started := false, timed_out := false, proc := { pid := 0, returncode := none } }

/-- `_BashSession.start`: spawn the shell once.  `fresh` is the process the
OS would hand back; the returned flag records whether a process was spawned
by this call.  A second call on a started session is a no-op. -/
def BashSession.start (s : BashSession) (fresh : Proc) : BashSession × Bool :=
  if s.started then (s, false)
  else ({ started := true, timed_out := s.timed_out, proc := fresh }, true)

/-- Signals the session can send. -/
inductive Sig
  | sigterm
  | sigkill
deriving DecidableEq

/-- Target of a signal: a single process or a whole process group. -/
inductive SigTarget
  | process (pid : Nat)
  | group (pgid : Nat)
deriving DecidableEq

/-- Observable effect of a successful `stop`. -/
inductive StopAction
  | noop
  | signal (sig : Sig) (target : SigTarget)
deriving DecidableEq

/-- Does a stop action signal a whole process group? -/
def targetsGroup : StopAction → Bool
  | StopAction.signal _ (SigTarget.group _) => true
  | _ => false

/-- Message of the `ToolError` raised on use before `start`. -/
def notStartedMsg : Str := "Session has not started.".data

/-- `_BashSession.stop`: raise before `start`; no-op once the process has
exited; otherwise `self._process.terminate()`, which delivers SIGTERM to the
shell process itself. -/
def BashSession.stop (s : BashSession) : Except Str StopAction :=
  if s.started = false then Except.error notStartedMsg
  else
    match s.proc.returncode with
    | some _ => Except.ok StopAction.noop
    | none => Except.ok (StopAction.signal Sig.sigterm (SigTarget.process s.proc.pid))

/-- The completion marker `_sentinel = "<<exit>>"`. -/
def sentinelStr : Str := "<<exit>>".data

/-- Message of the `ToolError` raised on timeout (with `_timeout = 120.0`
interpolated), and re-raised by every later `run` on the poisoned session. -/
def timeoutMsg : Str :=
  "timed out: bash has not returned in 120.0 seconds and must be restarted".data

/-- The `system` text of the result returned when the shell has exited. -/
def mustRestartMsg : Str := "tool must be restarted".data

/-- The result `run` returns when the shell process has already exited with
code `rc`. -/
def exitedResult (rc : Int) : ToolResult :=
  { error := some ("bash has exited with returncode ".data ++ (toString rc).data),
    system := some mustRestartMsg }

/-- A single ASCII apostrophe, as written by the sentinel echo. -/
def squote : Char := Char.ofNat 39

/-- The bytes appended to every command before it is written to the shell's
stdin: the source's f-string producing `; echo ` + a quoted sentinel + a
newline. -/
def sentinelEcho : Str :=
  "; echo ".data ++ (squote :: sentinelStr) ++ [squote, Char.ofNat 10]

/-- What the polling loop can observe: the successive contents of the stdout
`StreamReader` buffer at each poll (a finite list, its exhaustion modelling
expiry of the 120 s `asyncio.timeout`), and the stderr buffer accumulated
since the previous command. -/
structure RunEnv where
  stdoutSnapshots : List Str
  stderrBuf : Str
deriving DecidableEq

/-- Outcome of `run` (and of the tool call): a returned result, or a raised
`ToolError` carrying its message. -/
inductive RunOut
  | result (r : ToolResult)
  | error (msg : Str)
deriving DecidableEq

/-- The polling loop: repeatedly inspect the buffered stdout; stop at the
first snapshot in which the sentinel occurs; `none` models the timeout. -/
def pollFind : List Str → Option Str
  | [] => none
  | b :: bs => if (firstIdx sentinelStr b).isSome then some b else pollFind bs

/-- `_BashSession.run`.  Returns the outcome, the session state after the
call, and the list of writes made to the shell's stdin during the call. -/
def BashSession.run (s : BashSession) (env : RunEnv) (command : Str) :
    RunOut × BashSession × List Str :=
  if s.started = false then (RunOut.error notStartedMsg, s, [])
  else
    match s.proc.returncode with
    | some rc => (RunOut.result (exitedResult rc), s, [])
    | none =>
      if s.timed_out = true then (RunOut.error timeoutMsg, s, [])
      else
        let w := command ++ sentinelEcho
        match pollFind env.stdoutSnapshots with
        | none => (RunOut.error timeoutMsg, { s with timed_out := true }, [w])
        | some buf =>
            (RunOut.result
              { output := some (stripOneNewline (takeBeforeFirst sentinelStr buf)),
                error := some (stripOneNewline env.stderrBuf) },
              s, [w])

/-! ### `bash.py`: the facade -/

/-- `BashTool` state: at most one session, created lazily. -/
structure BashTool where
  session : Option BashSession
deriving DecidableEq

/-- Observable events of one facade invocation. -/
inductive Event
  | stopped (act : StopAction)
  | spawned (p : Proc)
  | wrote (data : Str)
deriving DecidableEq

/-- Result of one facade invocation: the outcome (returned result or raised
error), the facade state afterwards, and the events that occurred. -/
structure InvokeRes where
  outcome : RunOut
  tool : BashTool
  events : List Event
deriving DecidableEq

/-- Message of the `ToolError` raised when neither command nor restart was
supplied. -/
def noCommandMsg : Str := "no command provided.".data

/-- The result returned by a restart invocation. -/
def restartedResult : ToolResult :=
  { system := some "tool has been restarted.".data }

/-- The session used by a non-restart invocation: the existing one, or a
freshly constructed and started one when none exists yet. -/
def lazySession (t : BashTool) (fresh : Proc) : BashSession :=
  match t.session with
  | none => (BashSession.new.start fresh).1
  | some s => s

/-- `BashTool.__call__`.  `fresh` is the process the OS would provide if
this invocation spawns a shell; `env` is the stream environment a `run`
performed by this invocation would observe. -/
def BashTool.call (t : BashTool) (command : Option Str) (restart : Bool)
    (fresh : Proc) (env : RunEnv) : InvokeRes :=
  if restart then
    match t.session with
    | some s =>
        match s.stop with
        | Except.error m => { outcome := RunOut.error m, tool := t, events := [] }
        | Except.ok act =>
            { outcome := RunOut.result restartedResult,
              tool := { session := some (BashSession.new.start fresh).1 },
              events := [Event.stopped act, Event.spawned fresh] }
    | none =>
        { outcome := RunOut.result restartedResult,
          tool := { session := some (BashSession.new.start fresh).1 },
          events := [Event.spawned fresh] }
  else
    let s0 := lazySession t fresh
    let ev0 : List Event :=
      match t.session with
      | none => [Event.spawned fresh]
      | some _ => []
    match command with
    | some c =>
        let r := s0.run env c
        { outcome := r.1, tool := { session := some r.2.1 },
          events := ev0 ++ r.2.2.map Event.wrote }
    | none =>
        { outcome := RunOut.error noCommandMsg, tool := { session := some s0 },
          events := ev0 }

/-- The events a successful restart invocation produces, given the facade's
prior session. -/
def stopEventsFor (os : Option BashSession) (fresh : Proc) : List Event :=
  match os with
  | none => [Event.spawned fresh]
  | some s =>
      match s.stop with
      | Except.ok act => [Event.stopped act, Event.spawned fresh]
      | Except.error _ => []

/-- The facade invariant: whenever a session is held, it has been started. -/
def InvHolds (t : BashTool) : Bool :=
  match t.session with
  | none => true
  | some s => s.started

/-! ### Concrete states used by closed witness and counterexample theorems -/

/-- A live shell process. -/
def liveProc : Proc := { pid := 7, returncode := none }

/-- A started, live, non-poisoned session. -/
def liveSession : BashSession := { started := true, timed_out := false, proc := liveProc }

/-- A started session whose previous `run` timed out. -/
def poisonedSession : BashSession := { started := true, timed_out := true, proc := liveProc }

/-- A started session whose shell exited with code 2. -/
def exitedSession : BashSession :=
  { started := true, timed_out := false, proc := { pid := 7, returncode := some 2 } }

/-- A started session that is both poisoned and whose shell exited. -/
def deadSession : BashSession :=
  { started := true, timed_out := true, proc := { pid := 3, returncode := some 1 } }

/-- The process the OS would hand to a spawn performed by an invocation. -/
def freshProc : Proc := { pid := 9, returncode := none }

/-- An environment whose first poll already sees the sentinel, after output
ending in two newlines, with pending stderr text. -/
def happyEnv : RunEnv :=
  { stdoutSnapshots := ["hi\n\n<<exit>>\n".data], stderrBuf := "warn\n".data }

/-- An environment in which the sentinel never appears: the poll times out. -/
def emptyEnv : RunEnv := { stdoutSnapshots := [], stderrBuf := [] }

/-- An environment whose buffered stdout contains the marker in the middle
of the command's own output. -/
def markerEnv : RunEnv :=
  { stdoutSnapshots := ["abc<<exit>>secret\n".data], stderrBuf := [] }

/-! ### Helper lemmas -/

/-- A nonempty pattern never occurs at the start of the empty text. -/
lemma hasPref_nil_false {pat : Str} (h : pat ≠ []) : hasPref pat [] = false := by
  cases pat with
  | nil => exact absurd rfl h
  | cons p ps => rfl

/-- A pattern occurring at the start of `s` decomposes `s` as the pattern
followed by the rest. -/
lemma hasPref_decomp (pat : Str) : ∀ s, hasPref pat s = true → s = pat ++ s.drop pat.length := by
  induction pat with
  | nil => intro s _; simp
  | cons p ps ih =>
    intro s h
    cases s with
    | nil => simp [hasPref] at h
    | cons c cs =>
      simp only [hasPref, Bool.and_eq_true, beq_iff_eq] at h
      obtain ⟨rfl, h2⟩ := h
      simp only [List.cons_append, List.length_cons, List.drop_succ_cons]
      exact congrArg (fun l => p :: l) (ih cs h2)

/-- An occurrence at the start of a truncation is an occurrence at the start
of the whole text. -/
lemma hasPref_of_take (pat : Str) : ∀ (n : Nat) (s : Str),
    hasPref pat (s.take n) = true → hasPref pat s = true := by
  induction pat with
  | nil => intro n s _; rfl
  | cons p ps ih =>
    intro n s h
    cases s with
    | nil => rw [List.take_nil] at h; exact h
    | cons c cs =>
      cases n with
      | zero => simp [hasPref] at h
      | succ m =>
        simp only [List.take_succ_cons] at h
        simp only [hasPref, Bool.and_eq_true] at h ⊢
        exact ⟨h.1, ih m cs h.2⟩

/-- `firstIdx` really finds an occurrence: the pattern occurs at the
returned index. -/
lemma firstIdx_hasPref (pat : Str) : ∀ (s : Str) (i : Nat),
    firstIdx pat s = some i → hasPref pat (s.drop i) = true := by
  intro s
  induction s with
  | nil =>
    intro i h
    simp only [firstIdx] at h
    split at h
    · next hp =>
      injection h with h0
      subst h0
      simpa using hp
    · cases h
  | cons c cs ih =>
    intro i h
    simp only [firstIdx] at h
    split at h
    · next hp =>
      injection h with h0
      subst h0
      simpa using hp
    · next hp =>
      rw [Option.map_eq_some'] at h
      obtain ⟨j, hj, rfl⟩ := h
      simpa using ih j hj

/-- `firstIdx` finds the first occurrence: the text strictly before the
returned index contains no occurrence of the (nonempty) pattern. -/
lemma firstIdx_take_none (pat : Str) (hpat : pat ≠ []) : ∀ (s : Str) (i : Nat),
    firstIdx pat s = some i → firstIdx pat (s.take i) = none := by
  intro s
  induction s with
  | nil =>
    intro i h
    simp [firstIdx, hasPref_nil_false hpat] at h
  | cons c cs ih =>
    intro i h
    simp only [firstIdx] at h
    split at h
    · next hp =>
      injection h with h0
      subst h0
      simp [firstIdx, hasPref_nil_false hpat]
    · next hp =>
      rw [Option.map_eq_some'] at h
      obtain ⟨j, hj, rfl⟩ := h
      have hnp : hasPref pat (c :: List.take j cs) = false := by
        by_contra hcon
        rw [Bool.not_eq_false] at hcon
        have h1 : hasPref pat ((c :: cs).take (j + 1)) = true := by
          simpa [List.take_succ_cons] using hcon
        exact hp (hasPref_of_take pat (j + 1) (c :: cs) h1)
      simp only [List.take_succ_cons, firstIdx, hnp, if_false]
      rw [ih j hj]
      rfl

/-- The possible first components of a `run` call, by session state. -/
lemma run_outcome_cases (s : BashSession) (env : RunEnv) (c : Str) :
    (s.started = false ∧ (s.run env c).1 = RunOut.error notStartedMsg) ∨
    (s.started = true ∧ ((s.run env c).1 = RunOut.error timeoutMsg ∨
        ∃ r, (s.run env c).1 = RunOut.result r)) := by
  by_cases hs : s.started = false
  · exact Or.inl ⟨hs, by simp [BashSession.run, hs]⟩
  · have hs' : s.started = true := by revert hs; cases s.started <;> simp
    refine Or.inr ⟨hs', ?_⟩
    cases hrc : s.proc.returncode with
    | some rc => exact Or.inr ⟨exitedResult rc, by simp [BashSession.run, hs', hrc]⟩
    | none =>
      by_cases ht : s.timed_out = true
      · exact Or.inl (by simp [BashSession.run, hs', hrc, ht])
      · cases hp : pollFind env.stdoutSnapshots with
        | none => exact Or.inl (by simp [BashSession.run, hs', hrc, ht, hp])
        | some b =>
          exact Or.inr ⟨{ output := some (stripOneNewline (takeBeforeFirst sentinelStr b)),
                          error := some (stripOneNewline env.stderrBuf) },
                        by simp [BashSession.run, hs', hrc, ht, hp]⟩

/-- `run` never raises the no-command error: that message belongs to the
facade alone. -/
lemma run_ne_noCommand (s : BashSession) (env : RunEnv) (c : Str) :
    (s.run env c).1 ≠ RunOut.error noCommandMsg := by
  rcases run_outcome_cases s env c with ⟨_, h⟩ | ⟨_, h | ⟨r, h⟩⟩ <;> rw [h]
  · intro hc
    injection hc with hm
    exact absurd hm (by decide)
  · intro hc
    injection hc with hm
    exact absurd hm (by decide)
  · intro hc
    cases hc

/-- `run` never changes the started flag. -/
lemma run_started_eq (s : BashSession) (env : RunEnv) (c : Str) :
    (s.run env c).2.1.started = s.started := by
  by_cases hs : s.started = false
  · simp [BashSession.run, hs]
  · cases hrc : s.proc.returncode with
    | some rc => simp [BashSession.run, hs, hrc]
    | none =>
      by_cases ht : s.timed_out = true
      · simp [BashSession.run, hs, hrc, ht]
      · cases hp : pollFind env.stdoutSnapshots with
        | none => simp [BashSession.run, hs, hrc, ht, hp]
        | some b => simp [BashSession.run, hs, hrc, ht, hp]

/-- `stop` on a started session never raises. -/
lemma stop_ok_of_started (s : BashSession) (hs : s.started = true) :
    ∃ a, s.stop = Except.ok a := by
  unfold BashSession.stop
  rw [hs]
  cases s.proc.returncode <;> simp

/-! ### Claim theorems -/

/-- C1: for every command whose foreground execution completes — the polling
loop finds the sentinel in a buffered stdout snapshot `b` — `run` returns a
result whose output is the buffered text strictly before the first
occurrence of the completion marker with one trailing newline stripped if
present, whose error is the stderr text accumulated since the last command
with one trailing newline likewise stripped, and whose system message is
empty; the session state is unchanged and exactly the command followed by
the sentinel echo is written to the shell's stdin. -/
theorem run_happy_path (s : BashSession) (env : RunEnv) (c b : Str)
    (h1 : s.started = true) (h2 : s.proc.returncode = none)
    (h3 : s.timed_out = false)
    (hb : pollFind env.stdoutSnapshots = some b) :
    s.run env c =
      (RunOut.result
        { output := some (stripOneNewline (takeBeforeFirst sentinelStr b)),
          error := some (stripOneNewline env.stderrBuf),
          base64_image := none, system := none },
       s, [c ++ sentinelEcho]) := by
  simp [BashSession.run, h1, h2, h3, hb]

/-- C1 witness: a session running `pwd` over a buffer `hi\n\n<<exit>>\n`
yields output `hi\n` (exactly one of the two trailing newlines stripped) and
error `warn` (its trailing newline stripped), with no system message. -/
theorem run_happy_path_witness :
    liveSession.started = true ∧ liveProc.returncode = none ∧
    liveSession.timed_out = false ∧
    pollFind happyEnv.stdoutSnapshots = some "hi\n\n<<exit>>\n".data ∧
    liveSession.run happyEnv "pwd".data =
      (RunOut.result
        { output := some "hi\n".data, error := some "warn".data,
          base64_image := none, system := none },
       liveSession, ["pwd".data ++ sentinelEcho]) := by
  refine ⟨rfl, rfl, rfl, by decide, ?_⟩
  have h := run_happy_path liveSession happyEnv "pwd".data "hi\n\n<<exit>>\n".data
    rfl rfl rfl (by decide)
  rw [h]
  decide

/-- C2: a session whose previous `run` timed out is poisoned: every
subsequent `run` writes nothing to the shell's stdin, leaves the session
state (in particular the sticky timed-out flag) unchanged, and yields a
must-be-restarted condition — the re-raised timeout `ToolError` while the
process is still alive, or the must-be-restarted result when the process has
meanwhile exited — until the session is replaced via restart. -/
theorem run_poisoned_sticky (s : BashSession) (env : RunEnv) (c : Str)
    (h1 : s.started = true) (h2 : s.timed_out = true) :
    (s.run env c).2.2 = [] ∧ (s.run env c).2.1 = s ∧
      (s.run env c).1 =
        (match s.proc.returncode with
         | none => RunOut.error timeoutMsg
         | some rc => RunOut.result (exitedResult rc)) := by
  cases hrc : s.proc.returncode <;> simp [BashSession.run, h1, h2, hrc]

/-- C2 witness: on a poisoned session with a live process, `run` writes
nothing, changes nothing, and re-raises the timeout error. -/
theorem run_poisoned_sticky_witness :
    poisonedSession.started = true ∧ poisonedSession.timed_out = true ∧
    (poisonedSession.run happyEnv "echo hello".data).2.2 = [] ∧
    (poisonedSession.run happyEnv "echo hello".data).2.1 = poisonedSession ∧
    (poisonedSession.run happyEnv "echo hello".data).1 = RunOut.error timeoutMsg := by
  have h := run_poisoned_sticky poisonedSession happyEnv "echo hello".data rfl rfl
  exact ⟨rfl, rfl, h.1, h.2.1, by rw [h.2.2]; decide⟩

/-- C3 counterexample: combining two results that both carry a non-empty
system message does not fail — their system messages are concatenated. -/
theorem add_both_system_messages_counterexample :
    ToolResult.add { system := some "a".data } { system := some "b".data }
      = Except.ok { system := some "ab".data } := by decide

/-- C3 amended: the combination concatenates the `output`, `error` and
`system` fields pairwise (truthy fields are concatenated, otherwise the
first truthy side is kept, so a single non-empty system message is
preserved); it fails precisely when both operands carry a non-empty base64
image, never because of system messages. -/
theorem add_combination_characterized (a b : ToolResult) :
    a.add b =
      (if truthy a.base64_image && truthy b.base64_image then
        Except.error cannotCombineMsg
      else
        Except.ok
          { output := orElseConcat a.output b.output,
            error := orElseConcat a.error b.error,
            base64_image := if truthy a.base64_image then a.base64_image else b.base64_image,
            system := orElseConcat a.system b.system }) := by
  have ct : ∀ f g, combine_fields f g true = Except.ok (orElseConcat f g) := by
    intro f g
    by_cases h : (truthy f && truthy g) = true <;> simp [combine_fields, orElseConcat, h]
  have cf : ∀ f g, combine_fields f g false =
      (if truthy f && truthy g then Except.error cannotCombineMsg
       else Except.ok (if truthy f then f else g)) := by
    intro f g
    by_cases h : (truthy f && truthy g) = true <;> simp [combine_fields, h]
  by_cases hb : (truthy a.base64_image && truthy b.base64_image) = true <;>
    simp [ToolResult.add, ct, cf, hb]

/-- C4: calling `run` on a started, non-poisoned session whose shell process
has already exited returns (does not raise) a result whose system message
states the tool must be restarted and whose error reports the exit code;
nothing is written and the session state is unchanged. -/
theorem run_exited_returns_result (s : BashSession) (env : RunEnv) (c : Str) (rc : Int)
    (h1 : s.started = true) (_h2 : s.timed_out = false)
    (h3 : s.proc.returncode = some rc) :
    s.run env c = (RunOut.result (exitedResult rc), s, []) ∧
      (exitedResult rc).system = some mustRestartMsg ∧
      (exitedResult rc).error =
        some ("bash has exited with returncode ".data ++ (toString rc).data) := by
  refine ⟨?_, rfl, rfl⟩
  simp [BashSession.run, h1, h3]

/-- C4 witness: a session whose shell exited with code 2 gets back a result
whose system message demands a restart and whose error names returncode 2. -/
theorem run_exited_returns_result_witness :
    exitedSession.started = true ∧ exitedSession.timed_out = false ∧
    exitedSession.proc.returncode = some 2 ∧
    exitedSession.run happyEnv "ls".data =
      (RunOut.result
        { output := none, error := some "bash has exited with returncode 2".data,
          base64_image := none, system := some "tool must be restarted".data },
       exitedSession, []) := by
  refine ⟨rfl, rfl, rfl, ?_⟩
  have h := run_exited_returns_result exitedSession happyEnv "ls".data 2 rfl rfl rfl
  rw [h.1]
  decide

/-- C5 counterexample: with restart false and the empty string supplied as
the command, the facade does not raise the no-command error (as the claim's
if-and-only-if would require): the empty string passes the `is not None`
check and is delegated to `run` — here it times out, since the bare
`; echo` line is a shell syntax error and the sentinel is never echoed. -/
theorem call_empty_command_counterexample :
    (BashTool.call { session := some liveSession } (some []) false freshProc emptyEnv).outcome
        = RunOut.error timeoutMsg ∧ timeoutMsg ≠ noCommandMsg := by
  exact ⟨by decide, by decide⟩

/-- C5 amended: `run` raises the not-started error exactly on sessions whose
`start` never ran; the facade raises the no-command error exactly when
restart is false and the command field is absent (`None`) — any supplied
command string, the empty string included, is delegated to the session's
`run` (after lazy session creation) and its outcome and resulting session
state are returned verbatim. -/
theorem call_no_command_iff (t : BashTool) (s : BashSession) (env : RunEnv)
    (fresh : Proc) (cmd : Option Str) (c : Str) :
    ((s.run env c).1 = RunOut.error notStartedMsg ↔ s.started = false) ∧
    ((t.call cmd false fresh env).outcome = RunOut.error noCommandMsg ↔ cmd = none) ∧
    ((t.call cmd true fresh env).outcome ≠ RunOut.error noCommandMsg) ∧
    ((t.call (some c) false fresh env).outcome = ((lazySession t fresh).run env c).1 ∧
     (t.call (some c) false fresh env).tool.session =
       some ((lazySession t fresh).run env c).2.1) := by
  refine ⟨?_, ?_, ?_, rfl, rfl⟩
  · constructor
    · intro h
      rcases run_outcome_cases s env c with ⟨hs, _⟩ | ⟨_, hout | ⟨r, hout⟩⟩
      · exact hs
      · rw [hout] at h
        injection h with hm
        exact absurd hm (by decide)
      · rw [hout] at h
        cases h
    · intro hs
      simp [BashSession.run, hs]
  · cases cmd with
    | none => simp [BashTool.call]
    | some c1 => simp [BashTool.call, run_ne_noCommand]
  · cases hts : t.session with
    | none =>
      simp [BashTool.call, hts]
    | some s1 =>
      cases hstop : s1.stop with
      | ok a => simp [BashTool.call, hts, hstop]
      | error m =>
        have hm : m = notStartedMsg := by
          revert hstop
          unfold BashSession.stop
          by_cases h1 : s1.started = false
          · rw [if_pos h1]
            intro he
            injection he with he1
            exact he1.symm
          · rw [if_neg h1]
            cases s1.proc.returncode <;> intro he <;> cases he
        subst hm
        simp [BashTool.call, hts, hstop]
        decide

/-- C6: a restart invocation on a facade satisfying the started-session
invariant always succeeds: the prior session, when present, is stopped; a
brand-new started session — fresh process, cleared timed-out flag, no trace
of the old session's poisoned or exited state — replaces it; and the
returned result's system message confirms the restart. -/
theorem call_restart_succeeds (t : BashTool) (cmd : Option Str) (fresh : Proc)
    (env : RunEnv) (h : InvHolds t = true) :
    (t.call cmd true fresh env).outcome = RunOut.result restartedResult ∧
    (t.call cmd true fresh env).tool.session =
      some { started := true, timed_out := false, proc := fresh } ∧
    (t.call cmd true fresh env).events = stopEventsFor t.session fresh := by
  cases hts : t.session with
  | none =>
    refine ⟨?_, ?_, ?_⟩ <;>
      simp [BashTool.call, hts, stopEventsFor, BashSession.start, BashSession.new]
  | some s =>
    have hs : s.started = true := by
      have h1 := h
      rw [InvHolds, hts] at h1
      exact h1
    obtain ⟨a, ha⟩ := stop_ok_of_started s hs
    refine ⟨?_, ?_, ?_⟩ <;>
      simp [BashTool.call, hts, ha, stopEventsFor, BashSession.start, BashSession.new]

/-- C6 witness: restarting a facade whose session is poisoned and whose
shell has exited succeeds, installs a fresh started session, and records a
no-op stop (the old process had exited) followed by the spawn. -/
theorem call_restart_succeeds_witness :
    InvHolds { session := some deadSession } = true ∧
    (BashTool.call { session := some deadSession } none true freshProc emptyEnv).outcome
        = RunOut.result restartedResult ∧
    (BashTool.call { session := some deadSession } none true freshProc emptyEnv).tool.session
        = some { started := true, timed_out := false, proc := freshProc } ∧
    (BashTool.call { session := some deadSession } none true freshProc emptyEnv).events
        = [Event.stopped StopAction.noop, Event.spawned freshProc] := by
  have h := call_restart_succeeds { session := some deadSession } none freshProc emptyEnv
    (by decide)
  exact ⟨by decide, h.1, h.2.1, by rw [h.2.2]; decide⟩

/-- C7 counterexample: on a started session with a live process (pid 7),
`stop` sends the graceful SIGTERM to the shell process itself, not to a
process group as the claim states. -/
theorem stop_signals_process_counterexample :
    liveSession.stop = Except.ok (StopAction.signal Sig.sigterm (SigTarget.process 7)) ∧
    targetsGroup (StopAction.signal Sig.sigterm (SigTarget.process 7)) = false := by
  exact ⟨by decide, rfl⟩

/-- C7 amended: `stop` raises a `ToolError` on a never-started session; it
is a no-op when the process has already exited; otherwise it sends a
graceful termination signal (SIGTERM, not a forceful kill) to the shell
process itself — not to its process group. -/
theorem stop_characterized (s : BashSession) (rc : Int)
    (h1 : s.started = true) (h2 : s.proc.returncode = none) :
    BashSession.new.stop = Except.error notStartedMsg ∧
    BashSession.stop { s with proc := { s.proc with returncode := some rc } }
      = Except.ok StopAction.noop ∧
    s.stop = Except.ok (StopAction.signal Sig.sigterm (SigTarget.process s.proc.pid)) ∧
    targetsGroup (StopAction.signal Sig.sigterm (SigTarget.process s.proc.pid)) = false := by
  refine ⟨by decide, ?_, ?_, rfl⟩
  · simp [BashSession.stop, h1]
  · simp [BashSession.stop, h1, h2]

/-- C7 witness: on the live started session, `stop` yields SIGTERM to
process 7, the exited variant is a no-op, and the fresh session errors. -/
theorem stop_characterized_witness :
    liveSession.started = true ∧ liveSession.proc.returncode = none ∧
    BashSession.new.stop = Except.error notStartedMsg ∧
    BashSession.stop { liveSession with proc := { liveSession.proc with returncode := some 9 } }
      = Except.ok StopAction.noop ∧
    liveSession.stop = Except.ok (StopAction.signal Sig.sigterm (SigTarget.process 7)) := by
  have h := stop_characterized liveSession 9 rfl rfl
  exact ⟨rfl, rfl, h.1, h.2.1, by rw [h.2.2.1]; decide⟩

/-- C8: `start` spawns the shell exactly once: on a not-yet-started session
the first call spawns (flag true) and sets the started flag and process
handle, and a repeated `start` on the resulting started session is a no-op
(flag false) that leaves the session — its process handle and started flag
included — unchanged. -/
theorem start_idempotent (s : BashSession) (f g : Proc) (h : s.started = false) :
    s.start f = ({ started := true, timed_out := s.timed_out, proc := f }, true) ∧
    (s.start f).1.start g = ((s.start f).1, false) := by
  constructor
  · simp [BashSession.start, h]
  · simp [BashSession.start, h]

/-- C8 witness: starting a fresh session spawns process 7 and sets the
flag; starting again with a different candidate process spawns nothing and
changes nothing. -/
theorem start_idempotent_witness :
    BashSession.new.started = false ∧
    BashSession.new.start liveProc
      = ({ started := true, timed_out := false, proc := liveProc }, true) ∧
    (BashSession.new.start liveProc).1.start freshProc
      = ((BashSession.new.start liveProc).1, false) := by
  have h := start_idempotent BashSession.new liveProc freshProc rfl
  exact ⟨rfl, by rw [h.1]; decide, h.2⟩

/-- C9: the facade invariant — whenever a session is held, its `start` has
completed and its started flag is true — is preserved by every completed
invocation; consequently the `stop` call performed inside a restart
invocation can never raise the not-started error. -/
theorem call_preserves_session_started (t : BashTool) (cmd : Option Str)
    (restart : Bool) (fresh : Proc) (env : RunEnv) (h : InvHolds t = true) :
    InvHolds (t.call cmd restart fresh env).tool = true ∧
    (t.call cmd true fresh env).outcome ≠ RunOut.error notStartedMsg := by
  constructor
  · cases restart with
    | true =>
      cases hts : t.session with
      | none => simp [BashTool.call, hts, InvHolds, BashSession.start, BashSession.new]
      | some s =>
        have hs : s.started = true := by
          have h1 := h
          rw [InvHolds, hts] at h1
          exact h1
        obtain ⟨a, ha⟩ := stop_ok_of_started s hs
        simp [BashTool.call, hts, ha, InvHolds, BashSession.start, BashSession.new]
    | false =>
      have hls : (lazySession t fresh).started = true := by
        cases hts : t.session with
        | none => simp [lazySession, hts, BashSession.start, BashSession.new]
        | some s =>
          have h1 := h
          rw [InvHolds, hts] at h1
          rw [lazySession, hts]
          exact h1
      cases cmd with
      | none => simp [BashTool.call, InvHolds, hls]
      | some c =>
        simp [BashTool.call, InvHolds, run_started_eq, hls]
  · cases hts : t.session with
    | none => simp [BashTool.call, hts]
    | some s =>
      have hs : s.started = true := by
        have h1 := h
        rw [InvHolds, hts] at h1
        exact h1
      obtain ⟨a, ha⟩ := stop_ok_of_started s hs
      simp [BashTool.call, hts, ha]

/-- C9 witness: an invocation that runs a command on a facade holding the
live session preserves the invariant, and a restart on it cannot hit the
not-started error. -/
theorem call_preserves_session_started_witness :
    InvHolds { session := some liveSession } = true ∧
    InvHolds (BashTool.call { session := some liveSession } (some "pwd".data) false
        freshProc happyEnv).tool = true ∧
    (BashTool.call { session := some liveSession } (some "pwd".data) true
        freshProc happyEnv).outcome ≠ RunOut.error notStartedMsg := by
  have h := call_preserves_session_started { session := some liveSession }
    (some "pwd".data) false freshProc happyEnv (by decide)
  exact ⟨by decide, h.1, h.2⟩

/-- C10: when the buffered stdout snapshot `b` found by the poll contains
the completion marker at (first) position `i`, the buffer decomposes as the
marker-free prefix `b.take i`, the marker, and a remainder; `run` returns
only that prefix (one trailing newline stripped) as the command's output,
silently discarding the marker and everything after it. -/
theorem run_marker_collision (s : BashSession) (env : RunEnv) (c b : Str) (i : Nat)
    (h1 : s.started = true) (h2 : s.proc.returncode = none)
    (h3 : s.timed_out = false)
    (hb : pollFind env.stdoutSnapshots = some b)
    (hi : firstIdx sentinelStr b = some i) :
    b = b.take i ++ sentinelStr ++ (b.drop i).drop sentinelStr.length ∧
    firstIdx sentinelStr (b.take i) = none ∧
    (s.run env c).1 =
      RunOut.result
        { output := some (stripOneNewline (b.take i)),
          error := some (stripOneNewline env.stderrBuf),
          base64_image := none, system := none } := by
  refine ⟨?_, ?_, ?_⟩
  · have hpre := firstIdx_hasPref sentinelStr b i hi
    have hd := hasPref_decomp sentinelStr (b.drop i) hpre
    calc b = b.take i ++ b.drop i := (List.take_append_drop i b).symm
      _ = b.take i ++ (sentinelStr ++ (b.drop i).drop sentinelStr.length) := by rw [← hd]
      _ = b.take i ++ sentinelStr ++ (b.drop i).drop sentinelStr.length := by
            rw [List.append_assoc]
  · exact firstIdx_take_none sentinelStr (by decide) b i hi
  · simp [BashSession.run, h1, h2, h3, hb, takeBeforeFirst, hi]

/-- C10 witness: over the buffer `abc<<exit>>secret\n` the first marker
occurrence is at index 3, the prefix `abc` is marker-free, and `run`
returns output `abc`, discarding `secret\n` after the marker. -/
theorem run_marker_collision_witness :
    liveSession.started = true ∧ liveProc.returncode = none ∧
    liveSession.timed_out = false ∧
    pollFind markerEnv.stdoutSnapshots = some "abc<<exit>>secret\n".data ∧
    firstIdx sentinelStr "abc<<exit>>secret\n".data = some 3 ∧
    "abc<<exit>>secret\n".data = "abc".data ++ sentinelStr ++ "secret\n".data ∧
    firstIdx sentinelStr "abc".data = none ∧
    (liveSession.run markerEnv "cat notes.txt".data).1 =
      RunOut.result
        { output := some "abc".data, error := some [],
          base64_image := none, system := none } := by
  refine ⟨rfl, rfl, rfl, by decide, by decide, by decide, by decide, ?_⟩
  have h := run_marker_collision liveSession markerEnv "cat notes.txt".data
    "abc<<exit>>secret\n".data 3 rfl rfl rfl (by decide) (by decide)
  rw [h.2.2]
  decide
